import Mathlib

/-!
Shallow embedding of the model acquisition pipeline of the repository:
`src/domain/model_loader_strategy.py`, `src/domain/model_adapter.py` and
`src/domain/model_controller.py`.

External backend codecs (joblib, pickle, pickle5, dill) are opaque
libraries; they are modelled as an environment record `Codecs` of
functions from the raw file bytes (and path) to either a loaded handle
or a Python exception message.  The availability flags `HAS_JOBLIB`,
`HAS_PICKLE5` and `HAS_DILL` are explicit boolean parameters.
-/

/-- Raw bytes of a model artifact, as read from disk. -/
abbrev Bytes := List Nat

/-- Identity of one loader strategy instance, as constructed in
`ModelLoaderContext._initialize_strategies`.  `standardPickle` and
`pickle5` carry the encoding argument of their constructor. -/
inductive StrategyTag where
  | joblibMemory
  | joblibFile
  | standardPickle (encoding : String)
  | pickle5 (encoding : String)
  | dill
  | customUnpickler
deriving DecidableEq, Repr

/-- The external deserialization backends, as opaque functions.  Each
returns either a handle of type `H` or the text of the Python exception
it raised.  `pickleLoads` and `pickle5Loads` take the encoding argument;
`joblibLoadFile` re-reads from the path; `customUnpickle` stands for the
whole `CompatibilityUnpickler` routine of `CustomUnpicklerStrategy.load`
(its internal loop over encodings is internal to that one call). -/
structure Codecs (H : Type) where
  joblibLoadMem : Bytes → Except String H
  joblibLoadFile : String → Except String H
  pickleLoads : String → Bytes → Except String H
  pickle5Loads : String → Bytes → Except String H
  dillLoads : Bytes → Except String H
  customUnpickle : Bytes → Except String H

/-- The `get_name` method of each concrete strategy class. -/
def strategyName : StrategyTag → String
  | .joblibMemory => "joblib (memory)"
  | .joblibFile => "joblib (file)"
  | .standardPickle enc => "Standard pickle (" ++ enc ++ ")"
  | .pickle5 enc => "pickle5 (" ++ enc ++ ")"
  | .dill => "dill"
  | .customUnpickler => "Custom unpickler"

/-- The `load` method of each concrete strategy class.  The joblib,
pickle5 and dill strategies first raise `ImportError` when their backend
module is missing, exactly as in the source. -/
def strategyLoad {H : Type} (c : Codecs H) (hasJoblib hasPickle5 hasDill : Bool)
    (t : StrategyTag) (path : String) (content : Bytes) : Except String H :=
  match t with
  | .joblibMemory => if hasJoblib then c.joblibLoadMem content else .error "joblib not installed"
  | .joblibFile => if hasJoblib then c.joblibLoadFile path else .error "joblib not installed"
  | .standardPickle enc => c.pickleLoads enc content
  | .pickle5 enc => if hasPickle5 then c.pickle5Loads enc content else .error "pickle5 not installed"
  | .dill => if hasDill then c.dillLoads content else .error "dill not installed"
  | .customUnpickler => c.customUnpickle content

/-- Python string slicing `s[:n]`: the first `n` characters. -/
def pyTruncate (s : String) (n : Nat) : String := ⟨s.data.take n⟩

/-- The strategy list built by `ModelLoaderContext._initialize_strategies`.
`Pickle5Strategy()` is constructed with its default encoding, which is
`latin1`. -/
def ModelLoaderContext._initialize_strategies (hasJoblib hasPickle5 hasDill : Bool) :
    List StrategyTag :=
  (if hasJoblib then [.joblibMemory, .joblibFile] else [])
  ++ [.standardPickle "latin1", .standardPickle "bytes", .standardPickle "ASCII"]
  ++ (if hasPickle5 then [.pickle5 "latin1", .pickle5 "latin1"] else [])
  ++ (if hasDill then [.dill] else [])
  ++ [.customUnpickler]

/-- State of one `ModelLoaderContext` object: the strategy list stored by
`__init__`. -/
structure ModelLoaderContext where
  strategies : List StrategyTag
deriving DecidableEq, Repr

/-- `ModelLoaderContext.__init__`. -/
def ModelLoaderContext.init (hasJoblib hasPickle5 hasDill : Bool) : ModelLoaderContext :=
  ⟨ModelLoaderContext._initialize_strategies hasJoblib hasPickle5 hasDill⟩

/-- The two failure shapes of `ModelLoaderContext.load_model`: the
`OSError` escaping the upfront `open`/`read`, and the final `ValueError`
raised after every strategy failed, which carries the per-strategy error
entries in attempt order. -/
inductive LoadFailure where
  | fileAccess (msg : String)
  | aggregated (errors : List String)
deriving DecidableEq, Repr

/-- The remediation hint appended to the aggregated error message. -/
def remediationHint : String :=
  "\n\nSuggestion: Try regenerating the model with: python models/create_sample_models.py"

/-- The message of the exception surfaced by `load_model`: for the
aggregated case, the exact `ValueError` string built at the end of
`load_model`. -/
def LoadFailure.message : LoadFailure → String
  | .fileAccess m => m
  | .aggregated errors =>
      "Failed to load model with all strategies:\n" ++ String.intercalate "\n" errors
      ++ remediationHint

/-- The `for strategy in self.strategies` loop of
`ModelLoaderContext.load_model`, instrumented with the list of strategies
actually attempted (second component).  `errors` is the accumulator list;
on failure each iteration appends `f"{name}: {str(e)[:50]}"`. -/
def loadAttempts {H : Type} (c : Codecs H) (hasJoblib hasPickle5 hasDill : Bool)
    (path : String) (content : Bytes) :
    List StrategyTag → List String → (Except (List String) (H × String)) × List StrategyTag
  | [], errors => (.error errors, [])
  | s :: rest, errors =>
    match strategyLoad c hasJoblib hasPickle5 hasDill s path content with
    | .ok m => (.ok (m, strategyName s), [s])
    | .error e =>
      let r := loadAttempts c hasJoblib hasPickle5 hasDill path content rest
        (errors ++ [strategyName s ++ ": " ++ pyTruncate e 50])
      (r.1, s :: r.2)

/-- The file system seen by `open(file_path, "rb").read()`: reading a
path either yields the bytes or raises an `OSError` message. -/
structure FS where
  readFile : String → Except String Bytes

/-- `ModelLoaderContext.load_model`.  The file is read once up front (a
read failure escapes before any strategy runs); then the strategies are
tried in order.  The Python method returns the bare model and prints the
winning strategy name; the embedding surfaces that printed display name
as the second component of the success value, and also returns the list
of strategies that were attempted. -/
def ModelLoaderContext.load_model {H : Type} (ctx : ModelLoaderContext) (c : Codecs H)
    (hasJoblib hasPickle5 hasDill : Bool) (fs : FS) (path : String) :
    Except LoadFailure (H × String) × List StrategyTag :=
  match fs.readFile path with
  | .error e => (.error (.fileAccess e), [])
  | .ok content =>
    match loadAttempts c hasJoblib hasPickle5 hasDill path content ctx.strategies [] with
    | (.ok r, att) => (.ok r, att)
    | (.error errs, att) => (.error (.aggregated errs), att)

/-- Availability of the backend codec a strategy delegates to, given the
three import flags.  The standard pickle and custom unpickler strategies
use only the standard library and are always available. -/
def codecAvailable (hasJoblib hasPickle5 hasDill : Bool) : StrategyTag → Bool
  | .joblibMemory => hasJoblib
  | .joblibFile => hasJoblib
  | .standardPickle _ => true
  | .pickle5 _ => hasPickle5
  | .dill => hasDill
  | .customUnpickler => true

/-- The full fixed priority order the spec describes, before omitting
unavailable codecs. -/
def fullPriorityOrder : List StrategyTag :=
  [.joblibMemory, .joblibFile,
   .standardPickle "latin1", .standardPickle "bytes", .standardPickle "ASCII",
   .pickle5 "latin1", .pickle5 "latin1", .dill, .customUnpickler]

/-!
Embedding of `ModelAdapter` (`src/domain/model_adapter.py`).  The loaded
handle is an arbitrary deserialized Python object; the adapter only
probes it for the attributes below, so the embedding records exactly
those: the two optional name attributes, the optional `n_features_in_`
value (which may be a non-integer, making `range(...)` raise
`TypeError`), and the optional `predict` / `predict_proba` methods.
Feature values are abstracted to `Int`; the claims settled here are
about shapes and control flow, not numerics. -/

/-- A Python value bound to the `n_features_in_` attribute: either a
non-negative integer usable by `range`, or some other object on which
`range(...)` raises `TypeError`. -/
inductive NFeatVal where
  | ofNat (n : Nat)
  | notInt
deriving DecidableEq, Repr

/-- Python exceptions raised by the adapter paths. -/
inductive PyError where
  | attributeError (attr : String)
  | typeError (msg : String)
  | indexError (msg : String)
deriving DecidableEq, Repr

/-- Message of a Python exception, as `str(e)` would render it. -/
def pyErrorMessage : PyError → String
  | .attributeError attr => "object has no attribute " ++ attr
  | .typeError msg => msg
  | .indexError msg => msg

/-- The deserialized model handle, restricted to the attributes the
adapter probes.  A `none` field models an absent attribute
(`hasattr` false / `AttributeError` on access). -/
structure PyModel where
  feature_names_in_ : Option (List String)
  feature_names : Option (List String)
  n_features_in_ : Option NFeatVal
  predict : Option (List (List Int) → List Int)
  predict_proba : Option (List (List Int) → List (List Int))

/-- `ModelAdapter.__init__`: stores the model and the optional explicit
feature names, with no capability check of any kind.  The structure
constructor `ModelAdapter.mk` is the faithful translation. -/
structure ModelAdapter where
  model : PyModel
  _feature_names : Option (List String)

/-- The placeholder names `Feature_0 .. Feature_(n-1)`. -/
def placeholderNames (n : Nat) : List String :=
  (List.range n).map fun i => "Feature_" ++ toString i

/-- `ModelAdapter.get_feature_names`.  The first guard is Python
truthiness of `self._feature_names`: both `None` and an empty list fall
through to the attribute probes.  The remaining branches mirror the
`hasattr` chain; a `n_features_in_` value that is not an integer makes
`range(...)` raise `TypeError`. -/
def ModelAdapter.get_feature_names (a : ModelAdapter) : Except PyError (List String) :=
  match a._feature_names with
  | some (x :: xs) => .ok (x :: xs)
  | _ =>
    match a.model.feature_names_in_ with
    | some l => .ok l
    | none =>
      match a.model.feature_names with
      | some l => .ok l
      | none =>
        match a.model.n_features_in_ with
        | some (.ofNat n) => .ok (placeholderNames n)
        | some .notInt => .error (.typeError "object cannot be interpreted as an integer")
        | none => .ok (placeholderNames 10)

/-- `ModelAdapter.predict` on a flat input vector.  The flat vector is
reshaped into a batch of size one (`[inst]`), then `self.model.predict`
is invoked (raising `AttributeError` when absent), `predict_proba` is
invoked only when present, and the first rows `prediction[0]` and
`probabilities[0]` are returned (`IndexError` on an empty output). -/
def ModelAdapter.predict (a : ModelAdapter) (inst : List Int) :
    Except PyError (Int × Option (List Int)) :=
  let batch := [inst]
  match a.model.predict with
  | none => .error (.attributeError "predict")
  | some f =>
    match f batch with
    | [] => .error (.indexError "index 0 is out of bounds")
    | p :: _ =>
      match a.model.predict_proba with
      | none => .ok (p, none)
      | some g =>
        match g batch with
        | [] => .error (.indexError "index 0 is out of bounds")
        | q :: _ => .ok (p, some q)

/-!
Embedding of `ModelController` (`src/domain/model_controller.py`).  The
singleton mechanism is explicit state passing: the class attribute
`_instance` is an `Option ControllerState`, and object construction
(`__new__` followed by `__init__`) is the function `constructController`.
-/

/-- The instance attributes of a `ModelController` object, plus the
`_initialized` flag set by `__new__`/`__init__`. -/
structure ControllerState where
  model : Option PyModel
  adapter : Option ModelAdapter
  feature_names : List String
  _initialized : Bool

/-- The body of `ModelController.__init__` past the early return: resets
the three state fields and marks the instance initialized. -/
def initController (_ : ControllerState) : ControllerState :=
  { model := none, adapter := none, feature_names := [], _initialized := true }

/-- `ModelController()` construction: `__new__` returns the existing
instance when there is one (otherwise allocates a fresh one with
`_initialized = False`), then `__init__` returns immediately on an
initialized instance and initializes the fields otherwise.  Returns the
new class-level `_instance` and the constructed object. -/
def constructController : Option ControllerState → Option ControllerState × ControllerState
  | some c =>
    if c._initialized then (some c, c)
    else
      let c2 := initController c
      (some c2, c2)
  | none =>
    let c2 := initController
      { model := none, adapter := none, feature_names := [], _initialized := false }
    (some c2, c2)

/-- Python `str.endswith`, by character list. -/
def pyEndsWith (s suffixStr : String) : Bool :=
  List.isSuffixOf suffixStr.data s.data

/-- The environment a `ModelController.load_model` call runs in: the
backend codecs (producing `PyModel` handles), the availability flags,
the file system, and the `json.load` path for `.json` files. -/
structure ControllerEnv where
  codecs : Codecs PyModel
  hasJoblib : Bool
  hasPickle5 : Bool
  hasDill : Bool
  fs : FS
  readJson : String → Except String PyModel

/-- The handle-producing stage of `ModelController.load_model`: the
extension dispatch, the `ModelLoaderContext` path for pickle files, the
`json.load` path, and the `ValueError` for unsupported extensions. -/
def ModelController.loadHandle (env : ControllerEnv) (path : String) :
    Except String PyModel :=
  if pyEndsWith path ".pkl" || pyEndsWith path ".pickle" then
    match ((ModelLoaderContext.init env.hasJoblib env.hasPickle5 env.hasDill).load_model
        env.codecs env.hasJoblib env.hasPickle5 env.hasDill env.fs path).1 with
    | .ok (m, _) => .ok m
    | .error f => .error f.message
  else if pyEndsWith path ".json" then env.readJson path
  else .error ("Unsupported file format: " ++ path)

/-- `ModelController.load_model`.  On loader success the source assigns
`self.model`, then `self.adapter = ModelAdapter(self.model)` (which
cannot fail), then `self.feature_names = self.adapter.get_feature_names()`;
the first two assignments are folded into one state update because no
observable step separates them.  Any exception is re-raised as
`Exception("Failed to load model: " + str(e))`.  Returns the result and
the post-call state of the instance. -/
def ModelController.load_model (env : ControllerEnv) (st : ControllerState) (path : String) :
    Except String (List String) × ControllerState :=
  match ModelController.loadHandle env path with
  | .error e => (.error ("Failed to load model: " ++ e), st)
  | .ok m =>
    let st2 := { st with model := some m, adapter := some (ModelAdapter.mk m none) }
    match (ModelAdapter.mk m none).get_feature_names with
    | .ok fns => (.ok fns, { st2 with feature_names := fns })
    | .error e => (.error ("Failed to load model: " ++ pyErrorMessage e), st2)

/-- `ModelController.predict`: raises when `self.adapter is None`,
otherwise delegates to the adapter (whose own exceptions propagate). -/
def ModelController.predict (st : ControllerState) (inst : List Int) :
    Except String (Int × Option (List Int)) :=
  match st.adapter with
  | none => .error "No model loaded. Please load a model first."
  | some a =>
    match a.predict inst with
    | .ok r => .ok r
    | .error e => .error (pyErrorMessage e)

/-!
Concrete environments, handles and states used to evaluate the
embedding at specific inputs. -/

/-- A file system in which every read succeeds with a small byte string. -/
def fsOk : FS := ⟨fun _ => .ok [128, 4, 149]⟩

/-- A file system in which every read raises an `OSError`. -/
def fsFail : FS := ⟨fun _ => .error "No such file or directory"⟩

/-- Backends (over `Nat` handles) that all fail, each with its own
message. -/
def codecsNatFail : Codecs Nat where
  joblibLoadMem := fun _ => .error "mem boom"
  joblibLoadFile := fun _ => .error "file boom"
  pickleLoads := fun enc _ => .error ("pickle boom " ++ enc)
  pickle5Loads := fun enc _ => .error ("p5 boom " ++ enc)
  dillLoads := fun _ => .error "dill boom"
  customUnpickle := fun _ => .error "custom boom"

/-- The per-strategy failure message produced by `codecsNatFail`. -/
def msgAll : StrategyTag → String
  | .joblibMemory => "mem boom"
  | .joblibFile => "file boom"
  | .standardPickle enc => "pickle boom " ++ enc
  | .pickle5 enc => "p5 boom " ++ enc
  | .dill => "dill boom"
  | .customUnpickler => "custom boom"

/-- Backends (over `Nat` handles) in which both joblib strategies fail
and standard pickle succeeds with handle `42`. -/
def codecsNatPickle : Codecs Nat where
  joblibLoadMem := fun _ => .error "mem boom"
  joblibLoadFile := fun _ => .error "file boom"
  pickleLoads := fun _ _ => .ok 42
  pickle5Loads := fun _ _ => .error "p5 boom"
  dillLoads := fun _ => .error "dill boom"
  customUnpickle := fun _ => .error "custom boom"

/-- A handle carrying embedded feature names under the primary
conventional attribute. -/
def mEmbedded : PyModel where
  feature_names_in_ := some ["x", "y"]
  feature_names := none
  n_features_in_ := none
  predict := none
  predict_proba := none

/-- A handle exposing only an input-width count of 4. -/
def mWidth4 : PyModel where
  feature_names_in_ := none
  feature_names := none
  n_features_in_ := some (.ofNat 4)
  predict := none
  predict_proba := none

/-- A handle with no prediction capability at all. -/
def mNoCapability : PyModel where
  feature_names_in_ := none
  feature_names := none
  n_features_in_ := none
  predict := none
  predict_proba := none

/-- A deterministic prediction method returning label 3 on any batch. -/
def fPred : List (List Int) → List Int := fun _ => [3]

/-- A deterministic probability method. -/
def gProb : List (List Int) → List (List Int) := fun _ => [[1, 9]]

/-- A handle exposing both `predict` and `predict_proba`. -/
def mPredProba : PyModel where
  feature_names_in_ := none
  feature_names := none
  n_features_in_ := none
  predict := some fPred
  predict_proba := some gProb

/-- The prediction method of the previously active good model. -/
def fOld : List (List Int) → List Int := fun _ => [1]

/-- A previously loaded, fully working handle. -/
def mOld : PyModel where
  feature_names_in_ := some ["old_f"]
  feature_names := none
  n_features_in_ := none
  predict := some fOld
  predict_proba := none

/-- The prediction method of the poisoned handle. -/
def fBad : List (List Int) → List Int := fun _ => [7]

/-- A handle that deserializes fine and can predict, but whose
`n_features_in_` attribute is not an integer, so
`ModelAdapter.get_feature_names` raises `TypeError`. -/
def mBad : PyModel where
  feature_names_in_ := none
  feature_names := none
  n_features_in_ := some .notInt
  predict := some fBad
  predict_proba := none

/-- Backends that deserialize every pickle artifact into `mBad`. -/
def codecsBad : Codecs PyModel where
  joblibLoadMem := fun _ => .error "mem boom"
  joblibLoadFile := fun _ => .error "file boom"
  pickleLoads := fun _ _ => .ok mBad
  pickle5Loads := fun _ _ => .error "p5 boom"
  dillLoads := fun _ => .error "dill boom"
  customUnpickle := fun _ => .error "custom boom"

/-- Environment in which loading a `.pkl` file yields `mBad`. -/
def envBad : ControllerEnv where
  codecs := codecsBad
  hasJoblib := false
  hasPickle5 := false
  hasDill := false
  fs := fsOk
  readJson := fun _ => .error "json boom"

/-- Controller state after a previous successful load of `mOld`. -/
def stPrior : ControllerState where
  model := some mOld
  adapter := some (ModelAdapter.mk mOld none)
  feature_names := ["old_f"]
  _initialized := true

/-- A freshly constructed controller: no load has ever happened. -/
def freshControllerState : ControllerState where
  model := none
  adapter := none
  feature_names := []
  _initialized := true

/-- A handle that loads and adapts cleanly. -/
def mGood : PyModel where
  feature_names_in_ := some ["a", "b"]
  feature_names := none
  n_features_in_ := none
  predict := none
  predict_proba := none

/-- Backends that deserialize every pickle artifact into `mGood`. -/
def codecsGood : Codecs PyModel where
  joblibLoadMem := fun _ => .error "mem boom"
  joblibLoadFile := fun _ => .error "file boom"
  pickleLoads := fun _ _ => .ok mGood
  pickle5Loads := fun _ _ => .error "p5 boom"
  dillLoads := fun _ => .error "dill boom"
  customUnpickle := fun _ => .error "custom boom"

/-- Environment in which loading a `.pkl` file yields `mGood`. -/
def envGood : ControllerEnv where
  codecs := codecsGood
  hasJoblib := false
  hasPickle5 := false
  hasDill := false
  fs := fsOk
  readJson := fun _ => .error "json boom"

/-- The controller state after a successful load of `mGood` on a fresh
controller. -/
def stAfterGoodLoad : ControllerState where
  model := some mGood
  adapter := some (ModelAdapter.mk mGood none)
  feature_names := ["a", "b"]
  _initialized := true

/-!
Helper lemmas about the strategy loop. -/

/-- When every strategy in the list fails, the loop exhausts the list,
appending one error entry per strategy in order. -/
theorem loadAttempts_all_fail {H : Type} (c : Codecs H) (hJ hP hD : Bool)
    (path : String) (content : Bytes) (msg : StrategyTag → String) :
    ∀ (l : List StrategyTag) (acc : List String),
    (∀ t ∈ l, strategyLoad c hJ hP hD t path content = .error (msg t)) →
    loadAttempts c hJ hP hD path content l acc =
      (.error (acc ++ l.map fun t => strategyName t ++ ": " ++ pyTruncate (msg t) 50), l) := by
  intro l
  induction l with
  | nil => intro acc _; simp [loadAttempts]
  | cons s rest ih =>
    intro acc hfail
    have hs := hfail s (by simp)
    simp only [loadAttempts, hs]
    rw [ih _ (fun t ht => hfail t (by simp [ht]))]
    simp

/-- When every strategy before `s` fails and `s` succeeds, the loop
returns the handle of `s` paired with its display name, having attempted
exactly the failing prefix followed by `s`. -/
theorem loadAttempts_first_success {H : Type} (c : Codecs H) (hJ hP hD : Bool)
    (path : String) (content : Bytes) (msg : StrategyTag → String)
    (s : StrategyTag) (h : H) (post : List StrategyTag) :
    ∀ (pre : List StrategyTag) (acc : List String),
    (∀ t ∈ pre, strategyLoad c hJ hP hD t path content = .error (msg t)) →
    strategyLoad c hJ hP hD s path content = .ok h →
    loadAttempts c hJ hP hD path content (pre ++ s :: post) acc =
      (.ok (h, strategyName s), pre ++ [s]) := by
  intro pre
  induction pre with
  | nil =>
    intro acc _ hs
    simp [loadAttempts, hs]
  | cons t rest ih =>
    intro acc hpre hs
    have ht := hpre t (by simp)
    simp only [List.cons_append, loadAttempts, ht, List.append_eq]
    rw [ih _ (fun u hu => hpre u (by simp [hu])) hs]

/-- The attempted strategies are always an initial segment of the
strategy list. -/
theorem loadAttempts_attempted_prefix {H : Type} (c : Codecs H) (hJ hP hD : Bool)
    (path : String) (content : Bytes) :
    ∀ (l : List StrategyTag) (acc : List String),
    ∃ rest, l = (loadAttempts c hJ hP hD path content l acc).2 ++ rest := by
  intro l
  induction l with
  | nil => intro acc; exact ⟨[], rfl⟩
  | cons s rest ih =>
    intro acc
    cases hs : strategyLoad c hJ hP hD s path content with
    | ok m => exact ⟨rest, by simp [loadAttempts, hs]⟩
    | error e =>
      obtain ⟨r2, hr⟩ := ih (acc ++ [strategyName s ++ ": " ++ pyTruncate e 50])
      exact ⟨r2, by simp only [loadAttempts, hs, List.cons_append]; exact congrArg (s :: ·) hr⟩

/-- When the upfront read succeeds, `load_model` reduces to the strategy
loop on the bytes read. -/
theorem load_model_read_ok {H : Type} (ctx : ModelLoaderContext) (c : Codecs H)
    (hJ hP hD : Bool) (fs : FS) (path : String) (content : Bytes)
    (hread : fs.readFile path = .ok content) :
    ctx.load_model c hJ hP hD fs path =
      (match loadAttempts c hJ hP hD path content ctx.strategies [] with
       | (.ok r, att) => (.ok r, att)
       | (.error errs, att) => (.error (.aggregated errs), att)) := by
  unfold ModelLoaderContext.load_model
  rw [hread]

/-- `ModelController.load_model` never touches the `_initialized` flag. -/
theorem load_model_preserves_initialized (env : ControllerEnv) (st : ControllerState)
    (path : String) :
    ((ModelController.load_model env st path).2)._initialized = st._initialized := by
  unfold ModelController.load_model
  split
  · rfl
  · split <;> rfl

/-!
Claim theorems. -/

/-- C1: for every fixed set of available backend codecs, the strategy
list built at loader-context construction is exactly the fixed priority
order `[JoblibMemory, JoblibFile, StandardPickle(latin1),
StandardPickle(bytes), StandardPickle(ascii), pickle5 variants?, dill?,
CustomUnpickler]` with the strategies of unavailable codecs omitted
(first conjunct); and in every `load_model` call the attempted
strategies are an initial segment of that same stored list, so the
order is identical across calls (second conjunct). -/
theorem C1_strategy_order :
    (∀ hasJoblib hasPickle5 hasDill : Bool,
      ModelLoaderContext._initialize_strategies hasJoblib hasPickle5 hasDill =
        fullPriorityOrder.filter (codecAvailable hasJoblib hasPickle5 hasDill)) ∧
    (∀ (H : Type) (ctx : ModelLoaderContext) (c : Codecs H) (hJ hP hD : Bool)
        (fs : FS) (path : String),
      ∃ rest, ctx.strategies = (ctx.load_model c hJ hP hD fs path).2 ++ rest) := by
  constructor
  · decide
  · intro H ctx c hJ hP hD fs path
    cases hr : fs.readFile path with
    | error e =>
      refine ⟨ctx.strategies, ?_⟩
      unfold ModelLoaderContext.load_model
      rw [hr]
      rfl
    | ok content =>
      obtain ⟨rest, h⟩ := loadAttempts_attempted_prefix c hJ hP hD path content ctx.strategies []
      refine ⟨rest, ?_⟩
      rw [load_model_read_ok ctx c hJ hP hD fs path content hr]
      cases hl : loadAttempts c hJ hP hD path content ctx.strategies [] with
      | mk res att =>
        rw [hl] at h
        cases res <;> simpa using h

/-- C2: when the file is readable and some strategy succeeds, the first
succeeding strategy (every strategy before it fails) determines the
result: its handle and its display name are returned and no later
strategy is attempted (the attempted list stops at it). -/
theorem C2_first_success_short_circuit {H : Type} (c : Codecs H) (hJ hP hD : Bool)
    (fs : FS) (ctx : ModelLoaderContext) (path : String) (content : Bytes)
    (msg : StrategyTag → String) (pre post : List StrategyTag) (s : StrategyTag) (h : H)
    (hread : fs.readFile path = .ok content)
    (hstrats : ctx.strategies = pre ++ s :: post)
    (hpre : ∀ t ∈ pre, strategyLoad c hJ hP hD t path content = .error (msg t))
    (hs : strategyLoad c hJ hP hD s path content = .ok h) :
    ctx.load_model c hJ hP hD fs path = (.ok (h, strategyName s), pre ++ [s]) := by
  rw [load_model_read_ok ctx c hJ hP hD fs path content hread, hstrats,
    loadAttempts_first_success c hJ hP hD path content msg s h post pre [] hpre hs]

/-- Witness for C2: with joblib available but failing and standard
pickle succeeding with handle 42, `load_model` returns
`(42, "Standard pickle (latin1)")` and attempts only the two joblib
strategies and the first standard pickle strategy. -/
theorem C2_witness :
    (ModelLoaderContext.init true false false).load_model codecsNatPickle true false false
        fsOk "model.pkl" =
      (.ok (42, "Standard pickle (latin1)"),
       [.joblibMemory, .joblibFile, .standardPickle "latin1"]) :=
  C2_first_success_short_circuit codecsNatPickle true false false fsOk
    (ModelLoaderContext.init true false false) "model.pkl" [128, 4, 149] msgAll
    [.joblibMemory, .joblibFile]
    [.standardPickle "bytes", .standardPickle "ASCII", .customUnpickler]
    (.standardPickle "latin1") 42 rfl rfl
    (by intro t ht; fin_cases ht <;> rfl) rfl

/-- C3: when the file is readable and every strategy in the list fails,
`load_model` raises the aggregated error whose entry list has exactly
one entry per attempted strategy, in attempt order, each of the form
`name ++ ": " ++ message truncated to the first 50 characters` (first
conjunct); every truncated message has length at most 50 (second
conjunct); and the surfaced message is the fixed header, the joined
entries, and the fixed remediation hint appended (third conjunct). -/
theorem C3_aggregated_failure {H : Type} (c : Codecs H) (hJ hP hD : Bool)
    (fs : FS) (ctx : ModelLoaderContext) (path : String) (content : Bytes)
    (msg : StrategyTag → String)
    (hread : fs.readFile path = .ok content)
    (hfail : ∀ t ∈ ctx.strategies, strategyLoad c hJ hP hD t path content = .error (msg t)) :
    (ctx.load_model c hJ hP hD fs path =
      (.error (.aggregated (ctx.strategies.map fun t =>
        strategyName t ++ ": " ++ pyTruncate (msg t) 50)), ctx.strategies)) ∧
    (∀ t, (pyTruncate (msg t) 50).length ≤ 50) ∧
    (∀ errors, LoadFailure.message (.aggregated errors) =
      "Failed to load model with all strategies:\n" ++ String.intercalate "\n" errors
        ++ remediationHint) := by
  refine ⟨?_, ?_, fun _ => rfl⟩
  · rw [load_model_read_ok ctx c hJ hP hD fs path content hread,
      loadAttempts_all_fail c hJ hP hD path content msg ctx.strategies [] hfail]
    rfl
  · intro t
    have h1 : (pyTruncate (msg t) 50).length = ((msg t).data.take 50).length := rfl
    rw [h1, List.length_take]
    exact min_le_left _ _

/-- Witness for C3: with all nine strategies present and all backends
failing, the aggregated error lists one truncated entry per strategy in
attempt order. -/
theorem C3_witness :
    (ModelLoaderContext.init true true true).load_model codecsNatFail true true true
        fsOk "model.pkl" =
      (.error (.aggregated ((ModelLoaderContext._initialize_strategies true true true).map
        fun t => strategyName t ++ ": " ++ pyTruncate (msgAll t) 50)),
       ModelLoaderContext._initialize_strategies true true true) :=
  (C3_aggregated_failure codecsNatFail true true true fsOk
    (ModelLoaderContext.init true true true) "model.pkl" [128, 4, 149] msgAll rfl
    (by intro t ht; fin_cases ht <;> rfl)).1

/-- C4: when the upfront read fails, `load_model` fails with the
distinct file-access error, no strategy is attempted (the attempted
list is empty), and a file-access error is never equal to an aggregated
all-strategies-failed error. -/
theorem C4_file_access_error {H : Type} (c : Codecs H) (hJ hP hD : Bool)
    (fs : FS) (ctx : ModelLoaderContext) (path : String) (e : String)
    (hread : fs.readFile path = .error e) :
    ctx.load_model c hJ hP hD fs path = (.error (.fileAccess e), []) ∧
    (∀ errors, LoadFailure.fileAccess e ≠ LoadFailure.aggregated errors) := by
  refine ⟨?_, fun errors hcontra => by cases hcontra⟩
  unfold ModelLoaderContext.load_model
  rw [hread]

/-- Witness for C4: an unreadable path produces the file-access error
with an empty attempted list. -/
theorem C4_witness :
    (ModelLoaderContext.init false false false).load_model codecsNatFail false false false
        fsFail "missing.pkl" =
      (.error (.fileAccess "No such file or directory"), []) :=
  (C4_file_access_error codecsNatFail false false false fsFail
    (ModelLoaderContext.init false false false) "missing.pkl"
    "No such file or directory" rfl).1

/-- C5 counterexample: an adapter constructed with an explicit but empty
feature-name list, over a handle embedding names under
`feature_names_in_`, returns the embedded names rather than the
explicitly passed (empty) list: the explicit-names-first precedence of
the claim fails for an explicit empty list, because the source guards
with Python truthiness (`if self._feature_names:`). -/
theorem C5_counterexample :
    (ModelAdapter.mk mEmbedded (some [])).get_feature_names = .ok ["x", "y"] ∧
    ["x", "y"] ≠ ([] : List String) :=
  ⟨rfl, by simp⟩

/-- C5 as amended: `get_feature_names` resolves by precedence with the
first match winning, where the explicit names win only when non-empty
(an explicit empty list is treated like absent names); else the
handle's `feature_names_in_`; else `feature_names`; else placeholder
names from the discoverable width `n_features_in_`; else exactly the 10
placeholder names. -/
theorem C5_feature_name_precedence (a : ModelAdapter) :
    (∀ x xs, a._feature_names = some (x :: xs) → a.get_feature_names = .ok (x :: xs)) ∧
    ((a._feature_names = none ∨ a._feature_names = some []) →
      (∀ l, a.model.feature_names_in_ = some l → a.get_feature_names = .ok l) ∧
      (a.model.feature_names_in_ = none →
        (∀ l, a.model.feature_names = some l → a.get_feature_names = .ok l) ∧
        (a.model.feature_names = none →
          (∀ n, a.model.n_features_in_ = some (.ofNat n) →
            a.get_feature_names = .ok (placeholderNames n)) ∧
          (a.model.n_features_in_ = none →
            a.get_feature_names = .ok (placeholderNames 10))))) := by
  constructor
  · intro x xs hx
    simp [ModelAdapter.get_feature_names, hx]
  · intro hempty
    refine ⟨?_, ?_⟩
    · intro l hl
      rcases hempty with h0 | h0 <;> simp [ModelAdapter.get_feature_names, h0, hl]
    · intro hnone1
      refine ⟨?_, ?_⟩
      · intro l hl
        rcases hempty with h0 | h0 <;>
          simp [ModelAdapter.get_feature_names, h0, hnone1, hl]
      · intro hnone2
        refine ⟨?_, ?_⟩
        · intro n hn
          rcases hempty with h0 | h0 <;>
            simp [ModelAdapter.get_feature_names, h0, hnone1, hnone2, hn]
        · intro hn
          rcases hempty with h0 | h0 <;>
            simp [ModelAdapter.get_feature_names, h0, hnone1, hnone2, hn]

/-- Witness for C5 (amended): explicit non-empty names `["a", "b"]` win
over embedded names `["x", "y"]`; and a handle exposing only
`n_features_in_ = 4` yields the 4 placeholder names. -/
theorem C5_witness :
    (ModelAdapter.mk mEmbedded (some ["a", "b"])).get_feature_names = .ok ["a", "b"] ∧
    (ModelAdapter.mk mWidth4 none).get_feature_names =
      .ok ["Feature_0", "Feature_1", "Feature_2", "Feature_3"] := by
  constructor
  · exact (C5_feature_name_precedence (ModelAdapter.mk mEmbedded (some ["a", "b"]))).1
      "a" ["b"] rfl
  · have h := ((((C5_feature_name_precedence
      (ModelAdapter.mk mWidth4 none)).2 (Or.inl rfl)).2 rfl).2 rfl).1 4 rfl
    have e : placeholderNames 4 = ["Feature_0", "Feature_1", "Feature_2", "Feature_3"] := rfl
    rw [e] at h
    exact h

/-- C6: for every flat numeric input vector, `predict` invokes the
handle's prediction method on the batch `[v]` of size 1, returns the
first row of the prediction output as the label, and returns the first
row of the probability output exactly when the handle exposes
`predict_proba`, and no probability otherwise. -/
theorem C6_predict_batch_of_one (m : PyModel) (fns : Option (List String))
    (f : List (List Int) → List Int) (v : List Int) (p : Int) (ps : List Int)
    (hf : m.predict = some f) (hp : f [v] = p :: ps) :
    (m.predict_proba = none → (ModelAdapter.mk m fns).predict v = .ok (p, none)) ∧
    (∀ g q qs, m.predict_proba = some g → g [v] = q :: qs →
      (ModelAdapter.mk m fns).predict v = .ok (p, some q)) := by
  constructor
  · intro hnone
    simp [ModelAdapter.predict, hf, hp, hnone]
  · intro g q qs hg hq
    simp [ModelAdapter.predict, hf, hp, hg, hq]

/-- Witness for C6: a handle with both methods yields the first rows of
both outputs on a concrete flat vector. -/
theorem C6_witness :
    (ModelAdapter.mk mPredProba none).predict [5, 6] = .ok (3, some [1, 9]) :=
  (C6_predict_batch_of_one mPredProba none fPred [5, 6] 3 [] rfl rfl).2
    gProb [1, 9] [] rfl rfl

/-- C8 counterexample: adapting a handle with no prediction capability
at all does not fail: the adapter is produced (and even resolves
feature names to the 10 placeholders); no AdapterCapabilityMissing
error exists anywhere in the source; the absence surfaces only when
`predict` is invoked, as a plain `AttributeError`. -/
theorem C8_counterexample :
    (ModelAdapter.mk mNoCapability none).get_feature_names = .ok (placeholderNames 10) ∧
    (ModelAdapter.mk mNoCapability none).predict [1, 2] =
      .error (.attributeError "predict") :=
  ⟨rfl, rfl⟩

/-- C8 as amended: adapter construction performs no capability check —
for every handle without a `predict` method the adapter is still
produced with the handle stored unchanged, and every later `predict`
call on it fails with `AttributeError` on `predict`. -/
theorem C8_no_capability_check (m : PyModel) (fns : Option (List String))
    (hm : m.predict = none) :
    (ModelAdapter.mk m fns).model = m ∧
    (∀ v, (ModelAdapter.mk m fns).predict v = .error (.attributeError "predict")) := by
  refine ⟨rfl, fun v => ?_⟩
  simp [ModelAdapter.predict, hm]

/-- Witness for C8 (amended): the capability-free handle yields a
working adapter whose `predict` raises `AttributeError`. -/
theorem C8_witness :
    (ModelAdapter.mk mNoCapability none).predict [1] = .error (.attributeError "predict") :=
  (C8_no_capability_check mNoCapability none rfl).2 [1]

/-- C7 code bug: a load whose loader stage succeeds but whose
adapter-construction stage fails (here: the loaded handle carries a
non-integer `n_features_in_`, so `get_feature_names` raises) leaves the
controller in a mixed state: the load call fails, yet the previously
active model handle and adapter have already been replaced by the new
ones, while the feature schema keeps its previous value — the previous
active state is not left unchanged and the replacement is not one
unit. -/
theorem C7_code_divergence :
    ((ModelController.load_model envBad stPrior "model.pkl").1 =
      .error "Failed to load model: object cannot be interpreted as an integer") ∧
    ((ModelController.load_model envBad stPrior "model.pkl").2).model = some mBad ∧
    ((ModelController.load_model envBad stPrior "model.pkl").2).adapter =
      some (ModelAdapter.mk mBad none) ∧
    stPrior.model = some mOld ∧
    mBad.n_features_in_ ≠ mOld.n_features_in_ ∧
    ((ModelController.load_model envBad stPrior "model.pkl").2).feature_names =
      stPrior.feature_names :=
  ⟨rfl, rfl, rfl, rfl, by decide, rfl⟩

/-- C9 code bug: on a fresh controller the claim holds (predict fails
with the not-loaded error), but after a failed load whose adapter stage
raised, the half-installed adapter remains: `predict` then succeeds and
invokes the prediction capability of the handle of the failed load,
instead of failing with a NotLoadedError — although no load has ever
succeeded on this controller. -/
theorem C9_code_divergence :
    (ModelController.predict freshControllerState [1, 2] =
      .error "No model loaded. Please load a model first.") ∧
    ((ModelController.load_model envBad freshControllerState "model.pkl").1 =
      .error "Failed to load model: object cannot be interpreted as an integer") ∧
    (ModelController.predict
        ((ModelController.load_model envBad freshControllerState "model.pkl").2) [1, 2] =
      .ok (7, none)) :=
  ⟨rfl, rfl, rfl⟩

/-- C10: construction of an initialized controller instance returns the
one existing instance with its state untouched (first conjunct); in
particular, constructing the controller again after a successful load
returns the same instance with the model handle, adapter and feature
schema of that load still present (second conjunct). -/
theorem C10_singleton_preserves_state :
    (∀ c : ControllerState, c._initialized = true →
      constructController (some c) = (some c, c)) ∧
    (∀ (env : ControllerEnv) (st : ControllerState) (path : String)
        (fns : List String) (st2 : ControllerState),
      st._initialized = true →
      ModelController.load_model env st path = (.ok fns, st2) →
      constructController (some st2) = (some st2, st2)) := by
  have base : ∀ c : ControllerState, c._initialized = true →
      constructController (some c) = (some c, c) := by
    intro c h
    simp [constructController, h]
  refine ⟨base, ?_⟩
  intro env st path fns st2 hinit hload
  have hpres := load_model_preserves_initialized env st path
  rw [hload] at hpres
  have h2 : st2._initialized = true := by rw [← hinit]; exact hpres
  exact base st2 h2

/-- Witness for C10: after a concrete successful load of `mGood` on a
fresh controller, re-construction returns the very same state with
model, adapter and schema intact. -/
theorem C10_witness :
    constructController (some stAfterGoodLoad) = (some stAfterGoodLoad, stAfterGoodLoad) :=
  C10_singleton_preserves_state.2 envGood freshControllerState "model.pkl" ["a", "b"]
    stAfterGoodLoad rfl rfl
